import Mathlib

/-!
Verification development for the peer-to-peer mutual-authentication engine
(src/auth/Peer.ts).  The Peer class is embedded shallowly: the mutable
fields of the class become a `PeerState` record, the wallet, transport and
certificate helpers become an `Env` record of abstract functions, and each
message processor becomes a function
`Env → PeerState → AuthMessage → PeerState × List Event × Option String`
returning the final state, the observable effects (messages handed to the
transport and user callbacks invoked, in order), and the error raised, if
any.  TypeScript values that may be `undefined` or `null` are embedded as
`Option`.  A processor that throws after mutating state returns the mutated
state together with `some errorMessage`, matching JavaScript exception
semantics where earlier field assignments persist.
-/

/-- An individual verifiable certificate.  The engine treats certificates as
opaque objects handled by external helpers, so the payload is irrelevant;
only identity matters. -/
structure VerifiableCertificate where
  certId : Nat
deriving DecidableEq, Repr

/-- A requested certificate set: certifier identity keys plus a map from
certificate type to the required field names (src/auth/types). -/
structure RequestedCertificateSet where
  certifiers : List String
  types : List (String × List String)
deriving DecidableEq, Repr

/-- The empty requested certificate set, the default used by the source for
`message.requestedCertificates ?? { certifiers: [], types: {} }`. -/
def emptyRequestedCertificates : RequestedCertificateSet :=
  { certifiers := [], types := [] }

/-- The on-wire AuthMessage record.  Every field that can be absent at
runtime is an `Option`. -/
structure AuthMessage where
  version : Option String := none
  messageType : Option String := none
  identityKey : Option String := none
  initialNonce : Option String := none
  yourNonce : Option String := none
  nonce : Option String := none
  requestedCertificates : Option RequestedCertificateSet := none
  certificates : Option (List VerifiableCertificate) := none
  payload : Option (List Nat) := none
  signature : Option (List Nat) := none
deriving DecidableEq, Repr

/-- A peer session as stored by the SessionManager. -/
structure PeerSession where
  isAuthenticated : Bool
  sessionNonce : Option String := none
  peerNonce : Option String := none
  peerIdentityKey : Option String := none
deriving DecidableEq, Repr

/-- Observable effects of processing a message: messages handed to the
transport and user callbacks invoked (identified by their registration id,
with the arguments the source passes). -/
inductive Event where
  | sent (m : AuthMessage)
  | generalCb (id : Nat) (senderPublicKey : Option String) (payload : List Nat)
  | certsReceivedCb (id : Nat) (senderPublicKey : Option String)
      (certs : List VerifiableCertificate)
  | certReqCb (id : Nat) (senderPublicKey : Option String)
      (req : RequestedCertificateSet)
  | initRespCb (id : Nat) (sessionNonce : String)
deriving DecidableEq, Repr

/-- The mutable fields of the Peer class.  Callback maps are embedded as
lists of registration ids (plus, for initial-response listeners, the
sessionNonce each listener was registered for, as in the source map of
`{ callback, sessionNonce }` entries). -/
structure PeerState where
  sessions : List PeerSession := []
  lastInteractedWithPeer : Option String := none
  certificatesToRequest : RequestedCertificateSet := emptyRequestedCertificates
  onGeneralMessageReceivedCallbacks : List Nat := []
  onCertificatesReceivedCallbacks : List Nat := []
  onCertificateRequestReceivedCallbacks : List Nat := []
  onInitialResponseReceivedCallbacks : List (Nat × String) := []
  callbackIdCounter : Nat := 0
deriving DecidableEq, Repr

/-- The external collaborators of the Peer: wallet primitives, certificate
helpers and fresh-randomness sources.  All signature operations in the
source use the fixed protocolID pair (2, auth message signature), so it is
not a parameter here.  `createSignature` takes data, keyID, counterparty;
`verifySignature` takes data, signature, keyID, counterparty.
`validateCertificatesOk` returns false when the external
`validateCertificates` helper would throw.  `toArrayB64` is
`Utils.toArray(s, base64)` of the primitives module. -/
structure Env where
  verifyNonce : String → Bool
  createNonce : String
  identityPublicKey : String
  toArrayB64 : String → List Nat
  createSignature : List Nat → String → String → List Nat
  verifySignature : List Nat → List Nat → String → String → Bool
  getVerifiableCertificates :
    RequestedCertificateSet → Option String → List VerifiableCertificate
  validateCertificatesOk : AuthMessage → RequestedCertificateSet → Bool
  jsonReqBytes : Option RequestedCertificateSet → List Nat
  jsonCertsBytes : List VerifiableCertificate → List Nat
  freshRequestNonce : String

/-- The fixed protocol version string (src/auth/Peer.ts line 17). -/
def AUTH_VERSION : String := "0.1"

/-- Modelled from the spec: the SessionManager (src/auth/SessionManager.ts
is not under src/).  `addSession` inserts a session, indexed by its
sessionNonce and, when present, its peerNonce and peerIdentityKey. -/
def addSession (sessions : List PeerSession) (s : PeerSession) :
    List PeerSession :=
  s :: sessions

/-- Modelled from the spec: the SessionManager lookup, by any of the three
indices sessionNonce, peerNonce, peerIdentityKey. -/
def getSession (sessions : List PeerSession) (key : String) :
    Option PeerSession :=
  sessions.find? fun s =>
    s.sessionNonce == some key || s.peerNonce == some key ||
      s.peerIdentityKey == some key

/-- Modelled from the spec: the SessionManager update, replacing the stored
session (matched here by its unique sessionNonce) and re-indexing it. -/
def updateSession (sessions : List PeerSession) (s : PeerSession) :
    List PeerSession :=
  sessions.map fun t => if t.sessionNonce == s.sessionNonce then s else t

/-- The JavaScript String.prototype.trim operation: strip leading and
trailing whitespace.  Defined over the character list so that it reduces
inside the kernel. -/
def jsTrim (s : String) : String :=
  String.mk
    (((s.data.dropWhile Char.isWhitespace).reverse.dropWhile
      Char.isWhitespace).reverse)

/-- Truth of the TypeScript test `o?.trim() === emptyString`: true only when
the field is present and trims to the empty string; an absent field makes
the optional chaining yield undefined, which is not the empty string. -/
def optTrimEmpty : Option String → Bool
  | some s => jsTrim s == ""
  | none => false

/-- Truth of the TypeScript test
`o !== undefined && o !== null && o.trim() !== emptyString`. -/
def optPresentNonEmpty : Option String → Bool
  | some s => jsTrim s != ""
  | none => false

/-- The byte sequence both handshake sides feed to the wallet for the
initialResponse signature: the base64 decoder applied to the string
concatenation of the two nonce strings
(`Utils.toArray((a ?? emptyString) + b, base64)` in the source, lines
482 to 488 and 539 to 548). -/
def initialResponseSignatureData (decode : String → List Nat)
    (peerInitialNonce sessionNonce : String) : List Nat :=
  decode (peerInitialNonce ++ sessionNonce)

/-- Registers an initial-response listener keyed by sessionNonce
(src lines 384 to 394). -/
def listenForInitialResponse (st : PeerState) (sessionNonce : String) :
    PeerState × Nat :=
  let callbackID := st.callbackIdCounter
  ({ st with
      onInitialResponseReceivedCallbacks :=
        st.onInitialResponseReceivedCallbacks ++ [(callbackID, sessionNonce)],
      callbackIdCounter := callbackID + 1 },
    callbackID)

/-- Removes an initial-response listener by id (src lines 402 to 404);
the source map delete tolerates absence. -/
def stopListeningForInitialResponses (st : PeerState) (callbackID : Nat) :
    PeerState :=
  { st with
      onInitialResponseReceivedCallbacks :=
        st.onInitialResponseReceivedCallbacks.filter
          fun p => p.1 != callbackID }

/-- Outcome of the promise returned by waitForInitialResponse. -/
inductive WaitOutcome where
  | resolved (sessionNonce : String)
  | rejected (msg : String)
deriving DecidableEq, Repr

/-- Result of running one of the two waitForInitialResponse handlers:
the peer state after the handler, whether clearTimeout was called on the
timer, and how the promise settled. -/
structure WaitResult where
  state : PeerState
  timerCleared : Bool
  outcome : WaitOutcome
deriving DecidableEq, Repr

/-- The timeout handler registered by waitForInitialResponse (src lines
369 to 372): unregister the listener, then reject the waiting caller.
The timer fired, so it was not cleared. -/
def waitOnTimeout (st : PeerState) (callbackID : Nat) : WaitResult :=
  { state := stopListeningForInitialResponses st callbackID,
    timerCleared := false,
    outcome := WaitOutcome.rejected "Initial response timed out." }

/-- The success callback registered by waitForInitialResponse (src lines
360 to 367): clear the timer, unregister the listener, resolve with the
sessionNonce passed by the firing site. -/
def waitOnInitialResponse (st : PeerState) (callbackID : Nat)
    (sessionNonce : String) : WaitResult :=
  { state := stopListeningForInitialResponses st callbackID,
    timerCleared := true,
    outcome := WaitOutcome.resolved sessionNonce }

/-- The synchronous prefix of initiateHandshake (src lines 325 to 347):
mint a session nonce, store a pending session, send the initialRequest.
The source then awaits waitForInitialResponse; that wait suspends the
current processing and cannot complete within a single-message model, so
it is rendered as an error outcome after the prefix effects. -/
def initiateHandshakeOpening (env : Env) (st : PeerState)
    (identityKey : Option String) : PeerState × List Event × Option String :=
  let sessionNonce := env.createNonce
  let st1 := { st with
    sessions := addSession st.sessions
      { isAuthenticated := false, sessionNonce := some sessionNonce,
        peerNonce := none, peerIdentityKey := identityKey } }
  let initialRequest : AuthMessage :=
    { version := some AUTH_VERSION, messageType := some "initialRequest",
      identityKey := some env.identityPublicKey,
      initialNonce := some sessionNonce,
      requestedCertificates := some st.certificatesToRequest }
  (st1, [Event.sent initialRequest], some "awaiting initialResponse")

/-- sendCertificateResponse (src lines 732 to 765): obtain an authenticated
session for the verifier key (initiating a handshake when none exists, see
initiateHandshakeOpening), sign the certificate list, send the
certificateResponse message. -/
def sendCertificateResponse (env : Env) (st : PeerState)
    (verifierIdentityKey : String)
    (certificates : List VerifiableCertificate) :
    PeerState × List Event × Option String :=
  match getSession st.sessions verifierIdentityKey with
  | some peerSession =>
    if peerSession.isAuthenticated then
      let requestNonce := env.freshRequestNonce
      let signature := env.createSignature (env.jsonCertsBytes certificates)
        (requestNonce ++ " " ++ (peerSession.peerNonce.getD "unknown"))
        (peerSession.peerIdentityKey.getD "unknown")
      let certificateResponse : AuthMessage :=
        { version := some AUTH_VERSION,
          messageType := some "certificateResponse",
          identityKey := some env.identityPublicKey,
          nonce := some requestNonce,
          initialNonce := some (peerSession.sessionNonce.getD "unknown"),
          yourNonce := some (peerSession.peerNonce.getD "unknown"),
          certificates := some certificates,
          signature := some signature }
      (st, [Event.sent certificateResponse], none)
    else initiateHandshakeOpening env st (some verifierIdentityKey)
  | none => initiateHandshakeOpening env st (some verifierIdentityKey)

/-- processInitialRequest (src lines 449 to 507).  The guard rejects only
fields that are present and trim to the empty string (optional chaining);
it then stores an authenticated session, gathers certificates to enclose
(or forwards the request to listeners), signs the nonce concatenation,
optionally adopts the sender as lastInteractedWithPeer, and sends the
initialResponse. -/
def processInitialRequest (env : Env) (st : PeerState) (m : AuthMessage) :
    PeerState × List Event × Option String :=
  if optTrimEmpty m.identityKey || optTrimEmpty m.initialNonce then
    (st, [], some "Missing required fields in initialResponse message.")
  else
    let sessionNonce := env.createNonce
    let st1 := { st with
      sessions := addSession st.sessions
        { isAuthenticated := true, sessionNonce := some sessionNonce,
          peerNonce := m.initialNonce, peerIdentityKey := m.identityKey } }
    let certPart : List Event × Option (List VerifiableCertificate) :=
      if 0 < (match m.requestedCertificates with
          | some rc => rc.certifiers.length
          | none => 0) then
        if 0 < st1.onCertificateRequestReceivedCallbacks.length then
          (st1.onCertificateRequestReceivedCallbacks.map fun i =>
            Event.certReqCb i m.identityKey
              (m.requestedCertificates.getD emptyRequestedCertificates),
            none)
        else
          ([], some (env.getVerifiableCertificates
            (m.requestedCertificates.getD emptyRequestedCertificates)
            m.identityKey))
      else ([], none)
    let signature := env.createSignature
      (initialResponseSignatureData env.toArrayB64
        (m.initialNonce.getD "") sessionNonce)
      ((m.initialNonce.getD "unknown") ++ " " ++ sessionNonce)
      (m.identityKey.getD "unknown")
    let initialResponseMessage : AuthMessage :=
      { version := some AUTH_VERSION, messageType := some "initialResponse",
        identityKey := some env.identityPublicKey,
        initialNonce := some sessionNonce,
        yourNonce := some (m.initialNonce.getD "unknown"),
        certificates := certPart.2,
        requestedCertificates := some st1.certificatesToRequest,
        signature := some signature }
    let st2 :=
      if st1.lastInteractedWithPeer = none then
        { st1 with lastInteractedWithPeer := m.identityKey }
      else st1
    (st2, certPart.1 ++ [Event.sent initialResponseMessage], none)

/-- processInitialResponse (src lines 517 to 617): require yourNonce,
verify it, look up the pending session, verify the signature over the
nonce concatenation, then mark the session authenticated and commit it.
The certificate block (src lines 562 to 616) — validation, the
certificatesReceived callbacks, the lastInteractedWithPeer update, the
initial-response callbacks and the nested requestedCertificates handling —
runs only when certificates were requested and the message carries some. -/
def processInitialResponse (env : Env) (st : PeerState) (m : AuthMessage) :
    PeerState × List Event × Option String :=
  match m.yourNonce with
  | none => (st, [], some "The nonce is missing from the message.")
  | some yn =>
    if env.verifyNonce yn then
      match getSession st.sessions yn with
      | none => (st, [], some "Peer session not found for peer")
      | some peerSession =>
        if env.verifySignature
            (initialResponseSignatureData env.toArrayB64
              (peerSession.sessionNonce.getD "") (m.initialNonce.getD ""))
            (m.signature.getD [])
            ((peerSession.sessionNonce.getD "") ++ " " ++
              (m.initialNonce.getD ""))
            (m.identityKey.getD "") then
          let ps2 : PeerSession := { peerSession with
            peerNonce := m.initialNonce,
            peerIdentityKey := m.identityKey,
            isAuthenticated := true }
          let st1 := { st with sessions := updateSession st.sessions ps2 }
          if 0 < st1.certificatesToRequest.certifiers.length ∧
              0 < (m.certificates.getD []).length then
            if env.validateCertificatesOk m st1.certificatesToRequest then
              let ev1 :=
                if 0 < (m.certificates.getD []).length then
                  st1.onCertificatesReceivedCallbacks.map fun i =>
                    Event.certsReceivedCb i m.identityKey
                      (m.certificates.getD [])
                else []
              let st2 :=
                if optPresentNonEmpty m.identityKey then
                  { st1 with lastInteractedWithPeer := m.identityKey }
                else st1
              let ev2 :=
                st2.onInitialResponseReceivedCallbacks.filterMap fun p =>
                  match ps2.sessionNonce with
                  | some sn =>
                    if p.2 = sn then some (Event.initRespCb p.1 sn) else none
                  | none => none
              match m.requestedCertificates with
              | some rc =>
                if 0 < rc.certifiers.length then
                  if 0 < st2.onCertificateRequestReceivedCallbacks.length then
                    (st2,
                      ev1 ++ ev2 ++
                        st2.onCertificateRequestReceivedCallbacks.map
                          (fun i => Event.certReqCb i
                            (some (m.identityKey.getD "unknown")) rc),
                      none)
                  else
                    let verifiableCertificates :=
                      env.getVerifiableCertificates rc
                        (some (m.identityKey.getD "unknown"))
                    let r := sendCertificateResponse env st2
                      (m.identityKey.getD "unknown") verifiableCertificates
                    (r.1, ev1 ++ ev2 ++ r.2.1, r.2.2)
                else (st2, ev1 ++ ev2, none)
              | none => (st2, ev1 ++ ev2, none)
            else (st1, [], some "Certificate validation failed")
          else (st1, [], none)
        else
          (st, [], some "Unable to verify initial response signature for peer")
    else
      (st, [], some "Initial response nonce verification failed from peer")

/-- processCertificateRequest (src lines 627 to 721): field, nonce,
session and signature checks in source order, then either forward the
request to listeners or auto-respond with matching certificates. -/
def processCertificateRequest (env : Env) (st : PeerState) (m : AuthMessage) :
    PeerState × List Event × Option String :=
  match m.yourNonce with
  | none => (st, [], some "Invalid message: Missing yourNonce")
  | some yn =>
    if jsTrim yn = "" then (st, [], some "Invalid message: Missing yourNonce")
    else if env.verifyNonce yn then
      match getSession st.sessions yn with
      | none => (st, [], some "Peer session not found for peer")
      | some peerSession =>
        match m.signature with
        | none => (st, [], some "Invalid message: Missing signature")
        | some sig =>
          match m.nonce with
          | none => (st, [], some "Invalid message: Missing nonce")
          | some nonce =>
            if jsTrim nonce = "" then
              (st, [], some "Invalid message: Missing nonce")
            else
              match peerSession.sessionNonce with
              | none => (st, [], some "Invalid session: Missing sessionNonce")
              | some sn =>
                if jsTrim sn = "" then
                  (st, [], some "Invalid session: Missing sessionNonce")
                else
                  match peerSession.peerIdentityKey with
                  | none =>
                    (st, [], some "Invalid session: Missing peerIdentityKey")
                  | some pik =>
                    if jsTrim pik = "" then
                      (st, [],
                        some "Invalid session: Missing peerIdentityKey")
                    else if env.verifySignature
                        (env.jsonReqBytes m.requestedCertificates) sig
                        (nonce ++ " " ++ sn) pik then
                      if 0 < (match m.requestedCertificates with
                          | some rc => rc.certifiers.length
                          | none => 0) ∧
                          optPresentNonEmpty m.identityKey = true then
                        if 0 < st.onCertificateRequestReceivedCallbacks.length
                        then
                          (st,
                            st.onCertificateRequestReceivedCallbacks.map
                              (fun i => Event.certReqCb i m.identityKey
                                (m.requestedCertificates.getD
                                  emptyRequestedCertificates)),
                            none)
                        else
                          sendCertificateResponse env st
                            (m.identityKey.getD "")
                            (env.getVerifiableCertificates
                              (m.requestedCertificates.getD
                                emptyRequestedCertificates)
                              m.identityKey)
                      else (st, [], none)
                    else
                      (st, [],
                        some "Invalid signature in certificate request message")
    else
      (st, [], some "Unable to verify nonce for certificate request message")

/-- processCertificateResponse (src lines 775 to 834): field, nonce,
session and signature checks in source order, then certificate validation
against the requested set echoed in the response, then the
certificatesReceived callbacks. -/
def processCertificateResponse (env : Env) (st : PeerState)
    (m : AuthMessage) : PeerState × List Event × Option String :=
  match m.yourNonce with
  | none => (st, [], some "Invalid message: Missing yourNonce")
  | some yn =>
    if jsTrim yn = "" then (st, [], some "Invalid message: Missing yourNonce")
    else if env.verifyNonce yn then
      match getSession st.sessions yn with
      | none => (st, [], some "Peer session not found for nonce")
      | some peerSession =>
        match peerSession.sessionNonce with
        | none => (st, [], some "Invalid peer session: Missing sessionNonce")
        | some sn =>
          if jsTrim sn = "" then
            (st, [], some "Invalid peer session: Missing sessionNonce")
          else
            match m.signature with
            | none => (st, [], some "Invalid message: Missing signature")
            | some sig =>
              if env.verifySignature
                  (env.jsonCertsBytes (m.certificates.getD [])) sig
                  ((m.nonce.getD "unknown") ++ " " ++ sn)
                  (m.identityKey.getD "unknown") then
                if env.validateCertificatesOk m
                    (m.requestedCertificates.getD
                      emptyRequestedCertificates) then
                  (st,
                    st.onCertificatesReceivedCallbacks.map fun i =>
                      Event.certsReceivedCb i
                        (some (m.identityKey.getD "unknown"))
                        (m.certificates.getD []),
                    none)
                else (st, [], some "Certificate validation failed")
              else
                (st, [],
                  some "Unable to verify certificate response signature for peer")
    else (st, [], some "Unable to verify nonce for certificate response")

/-- processGeneralMessage (src lines 844 to 916): field checks, nonce
verification, session lookup and completeness checks, signature
verification over the raw payload, then the lastInteractedWithPeer update
(raising when identityKey is absent), then the generalMessage callbacks. -/
def processGeneralMessage (env : Env) (st : PeerState) (m : AuthMessage) :
    PeerState × List Event × Option String :=
  match m.yourNonce with
  | none => (st, [], some "Invalid message: Missing yourNonce")
  | some yn =>
    match m.signature with
    | none => (st, [], some "Invalid message: Missing signature")
    | some sig =>
      match m.nonce with
      | none => (st, [], some "Invalid message: Missing nonce")
      | some nonce =>
        match m.payload with
        | none => (st, [], some "Invalid message: Missing payload")
        | some payload =>
          if env.verifyNonce yn then
            match getSession st.sessions yn with
            | none => (st, [], some "Peer session not found for peer")
            | some peerSession =>
              match peerSession.sessionNonce with
              | none =>
                (st, [],
                  some "Invalid peer session: Missing sessionNonce for peer")
              | some sn =>
                match peerSession.peerIdentityKey with
                | none =>
                  (st, [],
                    some
                      "Invalid peer session: Missing peerIdentityKey for peer")
                | some pik =>
                  if env.verifySignature payload sig (nonce ++ " " ++ sn)
                      pik then
                    match m.identityKey with
                    | some ik =>
                      ({ st with lastInteractedWithPeer := some ik },
                        st.onGeneralMessageReceivedCallbacks.map fun i =>
                          Event.generalCb i (some ik) payload,
                        none)
                    | none =>
                      (st, [], some "Invalid message: Missing identityKey")
                  else
                    (st, [], some "Invalid signature in generalMessage")
          else
            (st, [], some "Unable to verify nonce for general message")

/-- Whether a messageType string is one of the five kinds the dispatcher
knows. -/
def isKnownMessageType : Option String → Bool
  | some t =>
    t == "initialRequest" || t == "initialResponse" ||
      t == "certificateRequest" || t == "certificateResponse" ||
      t == "general"
  | none => false

/-- handleIncomingMessage (src lines 412 to 441): drop the message when the
version is absent, blank or different from AUTH_VERSION, else dispatch on
messageType, dropping unknown kinds. -/
def handleIncomingMessage (env : Env) (st : PeerState) (m : AuthMessage) :
    PeerState × List Event × Option String :=
  match m.version with
  | none => (st, [], none)
  | some v =>
    if jsTrim v = "" ∨ v ≠ AUTH_VERSION then (st, [], none)
    else
      match m.messageType with
      | none => (st, [], none)
      | some t =>
        if t = "initialRequest" then processInitialRequest env st m
        else if t = "initialResponse" then processInitialResponse env st m
        else if t = "certificateRequest" then
          processCertificateRequest env st m
        else if t = "certificateResponse" then
          processCertificateResponse env st m
        else if t = "general" then processGeneralMessage env st m
        else (st, [], none)

/-- A single base64 character mapped to its 6-bit value; none for the
padding character and any character outside the alphabet. -/
def b64Val (c : Char) : Option Nat :=
  if 65 ≤ c.toNat ∧ c.toNat ≤ 90 then some (c.toNat - 65)
  else if 97 ≤ c.toNat ∧ c.toNat ≤ 122 then some (c.toNat - 97 + 26)
  else if 48 ≤ c.toNat ∧ c.toNat ≤ 57 then some (c.toNat - 48 + 52)
  else if c = '+' then some 62
  else if c = '/' then some 63
  else none

/-- Modelled from the spec: streaming standard base64 decoding, the meaning
of Utils.toArray(s, base64); the primitives module holding Utils.toArray is
not under src/.  Each alphabet character contributes 6 bits to an
accumulator and a byte is emitted whenever 8 bits are available; decoding
stops at the first padding or non-alphabet character. -/
def b64DecodeAux : List Char → Nat → Nat → List Nat
  | [], _, _ => []
  | c :: rest, bits, acc =>
    match b64Val c with
    | none => []
    | some v =>
      let acc2 := acc * 64 + v
      let bits2 := bits + 6
      if 8 ≤ bits2 then
        (acc2 / 2 ^ (bits2 - 8)) % 256 ::
          b64DecodeAux rest (bits2 - 8) (acc2 % 2 ^ (bits2 - 8))
      else b64DecodeAux rest bits2 acc2

/-- Modelled from the spec: base64 decoding of a string, see b64DecodeAux. -/
def base64Decode (s : String) : List Nat :=
  b64DecodeAux s.data 0 0


/-- A concrete environment for witnesses and evaluations: every nonce
verifies, every signature verifies, the identity signing data is returned
as the signature. -/
def envW : Env where
  verifyNonce := fun _ => true
  createNonce := "fresh-nonce"
  identityPublicKey := "self-key"
  toArrayB64 := fun s => s.data.map Char.toNat
  createSignature := fun d _ _ => d
  verifySignature := fun _ _ _ _ => true
  getVerifiableCertificates := fun _ _ => []
  validateCertificatesOk := fun _ _ => true
  jsonReqBytes := fun _ => []
  jsonCertsBytes := fun _ => []
  freshRequestNonce := "req-nonce"

/-- envW with nonce verification failing. -/
def envF : Env :=
  { envW with verifyNonce := fun _ => false }

/-- envW with certificate validation failing. -/
def envV : Env :=
  { envW with validateCertificatesOk := fun _ _ => false }

/-- A peer state with no sessions and no listeners. -/
def stEmpty : PeerState := {}

/-- The pending session stored by initiateHandshake before the
initialResponse arrives: local nonce n1, tentative peer identity key. -/
def pendingSession : PeerSession :=
  { isAuthenticated := false, sessionNonce := some "n1",
    peerNonce := none, peerIdentityKey := some "peer" }

/-- An initiator state mid-handshake: the pending session for nonce n1, one
initial-response listener registered for n1, and a previously recorded
last-interacted peer. -/
def stHandshake : PeerState :=
  { sessions := [pendingSession],
    lastInteractedWithPeer := some "old",
    onInitialResponseReceivedCallbacks := [(0, "n1")],
    callbackIdCounter := 1 }

/-- A well-formed initialResponse for the pending session n1 that carries
no certificates. -/
def plainInitialResponse : AuthMessage :=
  { version := some AUTH_VERSION, messageType := some "initialResponse",
    identityKey := some "peer", initialNonce := some "n2",
    yourNonce := some "n1", signature := some [1, 2, 3] }

/-- The messages handed to the transport among a list of effects. -/
def sentMessages (evs : List Event) : List AuthMessage :=
  evs.filterMap fun e =>
    match e with
    | Event.sent a => some a
    | _ => none

/-- An initialRequest whose initialNonce field is absent. -/
def missingNonceInitialRequest : AuthMessage :=
  { version := some AUTH_VERSION, messageType := some "initialRequest",
    identityKey := some "alice" }

/-- An initialRequest whose identityKey field is absent. -/
def missingIdentityKeyInitialRequest : AuthMessage :=
  { version := some AUTH_VERSION, messageType := some "initialRequest",
    initialNonce := some "pn" }

/-- A message carrying a version different from AUTH_VERSION. -/
def badVersionMessage : AuthMessage :=
  { version := some "0.2", messageType := some "general",
    identityKey := some "peer" }

/-- A general message that is complete except for its absent identityKey. -/
def generalNoIdentity : AuthMessage :=
  { version := some AUTH_VERSION, messageType := some "general",
    yourNonce := some "n1", nonce := some "r1",
    payload := some [222, 173, 190, 239], signature := some [9] }

/-- stHandshake with one certifier requested, so that the certificate
block of processInitialResponse is reachable. -/
def stCertReq : PeerState :=
  { stHandshake with
      certificatesToRequest := { certifiers := ["certifierX"], types := [] } }

/-- plainInitialResponse carrying one certificate. -/
def certInitialResponse : AuthMessage :=
  { plainInitialResponse with certificates := some [{ certId := 7 }] }

/-- The base64 encoding of thirty-two zero bytes: forty-three alphabet
characters followed by one padding character, the shape of every nonce the
protocol mints (nonces are base64 encodings of 32 random bytes). -/
def zeroNonceB64 : String := "AAAAAAAAAAAAAAAAAAAAAAAAAAAAAAAAAAAAAAAAAAA="

/-- An environment in which createSignature returns the signed data itself
and verifySignature compares the data it is given with the signature, so a
verification succeeds exactly when the two sides computed the same bytes.
The base64 decoder is a parameter. -/
def envRoundTrip (decode : String → List Nat) (freshNonce idKey : String) :
    Env where
  verifyNonce := fun _ => true
  createNonce := freshNonce
  identityPublicKey := idKey
  toArrayB64 := decode
  createSignature := fun d _ _ => d
  verifySignature := fun d s _ _ => d == s
  getVerifiableCertificates := fun _ _ => []
  validateCertificatesOk := fun _ _ => true
  jsonReqBytes := fun _ => []
  jsonCertsBytes := fun _ => []
  freshRequestNonce := "fresh"

/-- The initiator peer state right after initiateHandshake stored its
pending session. -/
def initiatorState (nInitiator responderKey : String) : PeerState :=
  { sessions :=
      [{ isAuthenticated := false, sessionNonce := some nInitiator,
         peerNonce := none, peerIdentityKey := some responderKey }] }

/-- The initialRequest the initiator sends. -/
def initialRequestMsg (nInitiator initiatorKey : String) : AuthMessage :=
  { version := some AUTH_VERSION, messageType := some "initialRequest",
    identityKey := some initiatorKey, initialNonce := some nInitiator }

/-- A processing result that left the state untouched, produced no effect,
and raised an error. -/
def untouchedWithError (r : PeerState × List Event × Option String)
    (st : PeerState) : Prop :=
  r.1 = st ∧ r.2.1 = [] ∧ r.2.2.isSome = true

/-- The initialResponse that processInitialRequest emits in the
round-trip environment. -/
def roundTripResponse (decode : String → List Nat)
    (nInitiator nResponder responderKey : String) : AuthMessage :=
  { version := some AUTH_VERSION, messageType := some "initialResponse",
    identityKey := some responderKey, initialNonce := some nResponder,
    yourNonce := some nInitiator,
    requestedCertificates := some emptyRequestedCertificates,
    signature :=
      some (initialResponseSignatureData decode nInitiator nResponder) }

/-- C1 (code evaluation at the failing input): a fully valid
initialResponse that carries no certificates, arriving for the pending
session n1 of a peer with a registered initial-response listener for n1,
completes without error and marks the session authenticated, yet produces
no effect at all — in particular the matching initial-response listener is
never invoked, because the source fires those callbacks only inside the
certificate branch (src lines 562 to 616). -/
theorem initialResponse_without_certificates_fires_no_callbacks :
    (processInitialResponse envW stHandshake plainInitialResponse).2.2
        = none ∧
    getSession
        (processInitialResponse envW stHandshake plainInitialResponse).1.sessions
        "n1" =
      some { isAuthenticated := true, sessionNonce := some "n1",
             peerNonce := some "n2", peerIdentityKey := some "peer" } ∧
    stHandshake.onInitialResponseReceivedCallbacks = [(0, "n1")] ∧
    (processInitialResponse envW stHandshake plainInitialResponse).2.1
        = [] := by
  decide

/-- C8 (code evaluation at the failing input): the same valid
certificate-free initialResponse completes successfully but leaves
lastInteractedWithPeer at its previous value instead of the message
identityKey, because the update also sits inside the certificate branch. -/
theorem plain_initialResponse_leaves_lastInteractedWithPeer_unchanged :
    (processInitialResponse envW stHandshake plainInitialResponse).2.2
        = none ∧
    (processInitialResponse envW stHandshake
        plainInitialResponse).1.lastInteractedWithPeer = some "old" ∧
    plainInitialResponse.identityKey = some "peer" := by
  decide

/-- C4 (code evaluation at the failing input): an initialRequest with its
initialNonce field absent passes the optional-chaining guard, so the
stored session is authenticated while its peerNonce is unset, violating
the authenticated-session completeness invariant. -/
theorem authenticated_session_stored_without_peerNonce :
    (processInitialRequest envW stEmpty missingNonceInitialRequest).2.2
        = none ∧
    ∃ s ∈ (processInitialRequest envW stEmpty
        missingNonceInitialRequest).1.sessions,
      s.isAuthenticated = true ∧ s.peerNonce = none := by
  decide

/-- C5 (code evaluation at the failing input): an initialRequest with its
identityKey field absent is not rejected — the guard
`identityKey?.trim() === emptyString` is false for an absent field — so
the processor stores a session and sends an initialResponse reply. -/
theorem missing_identityKey_initialRequest_accepted :
    (processInitialRequest envW stEmpty
        missingIdentityKeyInitialRequest).2.2 = none ∧
    (processInitialRequest envW stEmpty
        missingIdentityKeyInitialRequest).1.sessions.length = 1 ∧
    (sentMessages (processInitialRequest envW stEmpty
        missingIdentityKeyInitialRequest).2.1).map
      (fun a => a.messageType) = [some "initialResponse"] := by
  decide

/-- C6 counterexample: for padded base64 nonces — the shape of every
32-byte nonce — the byte sequence the code actually signs and verifies,
namely the decoder applied to the concatenated nonce strings, differs from
the concatenation of the two individual decodings claimed by the spec. -/
theorem initialResponse_signature_data_is_not_decode_concat :
    initialResponseSignatureData base64Decode zeroNonceB64 zeroNonceB64 ≠
      base64Decode zeroNonceB64 ++ base64Decode zeroNonceB64 := by
  decide

/-- C7: after waitForInitialResponse registers its listener, the timeout
handler rejects with exactly the message Initial response timed out. and
removes the listener (without clearing the fired timer), while the success
callback clears the timer, removes the listener and resolves with the
sessionNonce it was invoked with. -/
theorem waitForInitialResponse_timeout_and_success (st : PeerState)
    (sessionNonce : String) :
    (waitOnTimeout (listenForInitialResponse st sessionNonce).1
        (listenForInitialResponse st sessionNonce).2).outcome =
      WaitOutcome.rejected "Initial response timed out." ∧
    (waitOnTimeout (listenForInitialResponse st sessionNonce).1
        (listenForInitialResponse st sessionNonce).2).timerCleared = false ∧
    ((waitOnTimeout (listenForInitialResponse st sessionNonce).1
        (listenForInitialResponse st sessionNonce).2).state.onInitialResponseReceivedCallbacks.all
      fun p => p.1 != (listenForInitialResponse st sessionNonce).2) = true ∧
    (waitOnInitialResponse (listenForInitialResponse st sessionNonce).1
        (listenForInitialResponse st sessionNonce).2 sessionNonce).outcome =
      WaitOutcome.resolved sessionNonce ∧
    (waitOnInitialResponse (listenForInitialResponse st sessionNonce).1
        (listenForInitialResponse st sessionNonce).2
        sessionNonce).timerCleared = true ∧
    ((waitOnInitialResponse (listenForInitialResponse st sessionNonce).1
        (listenForInitialResponse st sessionNonce).2
        sessionNonce).state.onInitialResponseReceivedCallbacks.all
      fun p => p.1 != (listenForInitialResponse st sessionNonce).2) = true := by
  refine ⟨rfl, rfl, ?_, rfl, rfl, ?_⟩ <;>
  · simp only [waitOnTimeout, waitOnInitialResponse,
      stopListeningForInitialResponses, List.all_eq_true]
    intro p hp
    exact (List.mem_filter.mp hp).2

/-- C7 witness at a concrete state and nonce. -/
theorem waitForInitialResponse_timeout_and_success_witness :
    (waitOnTimeout (listenForInitialResponse stEmpty "n1").1
        (listenForInitialResponse stEmpty "n1").2).outcome =
      WaitOutcome.rejected "Initial response timed out." ∧
    (waitOnTimeout (listenForInitialResponse stEmpty "n1").1
        (listenForInitialResponse stEmpty "n1").2).timerCleared = false ∧
    ((waitOnTimeout (listenForInitialResponse stEmpty "n1").1
        (listenForInitialResponse stEmpty "n1").2).state.onInitialResponseReceivedCallbacks.all
      fun p => p.1 != (listenForInitialResponse stEmpty "n1").2) = true ∧
    (waitOnInitialResponse (listenForInitialResponse stEmpty "n1").1
        (listenForInitialResponse stEmpty "n1").2 "n1").outcome =
      WaitOutcome.resolved "n1" ∧
    (waitOnInitialResponse (listenForInitialResponse stEmpty "n1").1
        (listenForInitialResponse stEmpty "n1").2 "n1").timerCleared = true ∧
    ((waitOnInitialResponse (listenForInitialResponse stEmpty "n1").1
        (listenForInitialResponse stEmpty "n1").2
        "n1").state.onInitialResponseReceivedCallbacks.all
      fun p => p.1 != (listenForInitialResponse stEmpty "n1").2) = true :=
  waitForInitialResponse_timeout_and_success stEmpty "n1"

/-- C2: an inbound message whose version differs from AUTH_VERSION, or
whose messageType is not one of the five known kinds, is dropped by the
dispatcher: the peer state is returned unchanged, no message is sent, no
callback fires and no error is raised. -/
theorem unknown_version_or_type_drops_message (env : Env) (st : PeerState)
    (m : AuthMessage)
    (h : m.version ≠ some AUTH_VERSION ∨
      isKnownMessageType m.messageType = false) :
    handleIncomingMessage env st m = (st, [], none) := by
  cases hv : m.version with
  | none => simp [handleIncomingMessage, hv]
  | some v =>
    by_cases hveq : v = AUTH_VERSION
    · subst hveq
      have htype : isKnownMessageType m.messageType = false := by
        rcases h with hbad | ht
        · exact absurd hv hbad
        · exact ht
      cases hmt : m.messageType with
      | none =>
        simp only [handleIncomingMessage, hv, hmt]
        rw [if_neg (by decide)]
      | some t =>
        rw [hmt] at htype
        simp only [isKnownMessageType, Bool.or_eq_false_iff,
          beq_eq_false_iff_ne, ne_eq] at htype
        obtain ⟨⟨⟨⟨h1, h2⟩, h3⟩, h4⟩, h5⟩ := htype
        simp only [handleIncomingMessage, hv, hmt]
        rw [if_neg (by decide)]
        simp [h1, h2, h3, h4, h5]
    · simp [handleIncomingMessage, hv, hveq]

/-- C2 witness: a concrete message with version 0.2 is dropped. -/
theorem unknown_version_or_type_drops_message_witness :
    handleIncomingMessage envW stEmpty badVersionMessage =
      (stEmpty, [], none) :=
  unknown_version_or_type_drops_message envW stEmpty badVersionMessage
    (Or.inl (by decide))

/-- When the nonce check fails, processInitialResponse aborts with an
error before any effect. -/
lemma processInitialResponse_nonce_guard (env : Env) (st : PeerState)
    (m : AuthMessage)
    (h : ∀ n, m.yourNonce = some n → env.verifyNonce n = false) :
    untouchedWithError (processInitialResponse env st m) st := by
  cases hyn : m.yourNonce with
  | none => simp [untouchedWithError, processInitialResponse, hyn]
  | some n =>
    have hv := h n hyn
    simp [untouchedWithError, processInitialResponse, hyn, hv]

/-- When the nonce check fails, processCertificateRequest aborts with an
error before any effect. -/
lemma processCertificateRequest_nonce_guard (env : Env) (st : PeerState)
    (m : AuthMessage)
    (h : ∀ n, m.yourNonce = some n → env.verifyNonce n = false) :
    untouchedWithError (processCertificateRequest env st m) st := by
  cases hyn : m.yourNonce with
  | none => simp [untouchedWithError, processCertificateRequest, hyn]
  | some n =>
    have hv := h n hyn
    by_cases ht : jsTrim n = ""
    · simp [untouchedWithError, processCertificateRequest, hyn, ht]
    · simp [untouchedWithError, processCertificateRequest, hyn, ht, hv]

/-- When the nonce check fails, processCertificateResponse aborts with an
error before any effect. -/
lemma processCertificateResponse_nonce_guard (env : Env) (st : PeerState)
    (m : AuthMessage)
    (h : ∀ n, m.yourNonce = some n → env.verifyNonce n = false) :
    untouchedWithError (processCertificateResponse env st m) st := by
  cases hyn : m.yourNonce with
  | none => simp [untouchedWithError, processCertificateResponse, hyn]
  | some n =>
    have hv := h n hyn
    by_cases ht : jsTrim n = ""
    · simp [untouchedWithError, processCertificateResponse, hyn, ht]
    · simp [untouchedWithError, processCertificateResponse, hyn, ht, hv]

/-- When the nonce check fails, processGeneralMessage aborts with an
error before any effect. -/
lemma processGeneralMessage_nonce_guard (env : Env) (st : PeerState)
    (m : AuthMessage)
    (h : ∀ n, m.yourNonce = some n → env.verifyNonce n = false) :
    untouchedWithError (processGeneralMessage env st m) st := by
  cases hyn : m.yourNonce with
  | none => simp [untouchedWithError, processGeneralMessage, hyn]
  | some n =>
    have hv := h n hyn
    cases hsig : m.signature <;> cases hn : m.nonce <;>
      cases hp : m.payload <;>
      simp [untouchedWithError, processGeneralMessage, hyn, hsig, hn, hp, hv]

/-- C3 (stated in the contrapositive): whenever verifyNonce rejects the
yourNonce of a message — or the field is absent — every one of the four
yourNonce-carrying processors returns the state unchanged, produces no
effect (no session mutation, no reply, no callback) and raises an error.
Hence any processing run that mutates the session store, sends a reply or
invokes a callback had verifyNonce return true for the carried
yourNonce. -/
theorem accepted_message_implies_verified_nonce (env : Env)
    (st : PeerState) (m : AuthMessage)
    (h : ∀ n, m.yourNonce = some n → env.verifyNonce n = false) :
    untouchedWithError (processInitialResponse env st m) st ∧
    untouchedWithError (processCertificateRequest env st m) st ∧
    untouchedWithError (processCertificateResponse env st m) st ∧
    untouchedWithError (processGeneralMessage env st m) st :=
  ⟨processInitialResponse_nonce_guard env st m h,
    processCertificateRequest_nonce_guard env st m h,
    processCertificateResponse_nonce_guard env st m h,
    processGeneralMessage_nonce_guard env st m h⟩

/-- C3 witness: a concrete environment rejecting every nonce. -/
theorem accepted_message_implies_verified_nonce_witness :
    untouchedWithError
        (processInitialResponse envF stHandshake plainInitialResponse)
        stHandshake ∧
    untouchedWithError
        (processCertificateRequest envF stHandshake plainInitialResponse)
        stHandshake ∧
    untouchedWithError
        (processCertificateResponse envF stHandshake plainInitialResponse)
        stHandshake ∧
    untouchedWithError
        (processGeneralMessage envF stHandshake plainInitialResponse)
        stHandshake :=
  accepted_message_implies_verified_nonce envF stHandshake
    plainInitialResponse (fun _ _ => rfl)

/-- C9: processInitialResponse marks the session authenticated and commits
it through updateSession before certificate validation runs, so when
validateCertificates fails the updated, authenticated session is already
stored while no certificatesReceived or initial-response callback has
fired and an error is raised. -/
theorem session_committed_before_certificate_validation (env : Env)
    (st : PeerState) (m : AuthMessage) (n : String) (ps : PeerSession)
    (hyn : m.yourNonce = some n)
    (hv : env.verifyNonce n = true)
    (hs : getSession st.sessions n = some ps)
    (hsig : env.verifySignature
        (initialResponseSignatureData env.toArrayB64
          (ps.sessionNonce.getD "") (m.initialNonce.getD ""))
        (m.signature.getD [])
        ((ps.sessionNonce.getD "") ++ " " ++ (m.initialNonce.getD ""))
        (m.identityKey.getD "") = true)
    (hcr : 0 < st.certificatesToRequest.certifiers.length)
    (hcm : 0 < (m.certificates.getD []).length)
    (hval : env.validateCertificatesOk m st.certificatesToRequest = false) :
    processInitialResponse env st m =
      ({ st with
          sessions :=
            updateSession st.sessions
              { ps with peerNonce := m.initialNonce, peerIdentityKey := m.identityKey, isAuthenticated := true } },
        [], some "Certificate validation failed") := by
  simp [processInitialResponse, hyn, hv, hs, hsig, hcr, hcm, hval]

/-- C9 witness: concrete failing validation after a valid signature. -/
theorem session_committed_before_certificate_validation_witness :
    processInitialResponse envV stCertReq certInitialResponse =
      ({ stCertReq with
          sessions :=
            updateSession stCertReq.sessions
              { isAuthenticated := true, sessionNonce := some "n1",
                peerNonce := some "n2", peerIdentityKey := some "peer" } },
        [], some "Certificate validation failed") :=
  session_committed_before_certificate_validation envV stCertReq
    certInitialResponse "n1" pendingSession rfl rfl rfl rfl (by decide)
    (by decide) rfl

/-- C10: a general message that is complete except for an absent
identityKey, with a valid nonce, an existing complete session and a
signature that verifies, is rejected with exactly the error
Invalid message: Missing identityKey — after signature verification —
leaving the state unchanged, with no callback fired. -/
theorem general_message_missing_identityKey (env : Env) (st : PeerState)
    (m : AuthMessage) (n : String) (sig : List Nat) (nonce : String)
    (payload : List Nat) (ps : PeerSession) (sn pik : String)
    (hyn : m.yourNonce = some n)
    (hsigf : m.signature = some sig)
    (hn : m.nonce = some nonce)
    (hp : m.payload = some payload)
    (hv : env.verifyNonce n = true)
    (hs : getSession st.sessions n = some ps)
    (hsn : ps.sessionNonce = some sn)
    (hpik : ps.peerIdentityKey = some pik)
    (hvs : env.verifySignature payload sig (nonce ++ " " ++ sn) pik = true)
    (hik : m.identityKey = none) :
    processGeneralMessage env st m =
      (st, [], some "Invalid message: Missing identityKey") := by
  simp [processGeneralMessage, hyn, hsigf, hn, hp, hv, hs, hsn, hpik, hvs,
    hik]

/-- C10 witness at a concrete message and state. -/
theorem general_message_missing_identityKey_witness :
    processGeneralMessage envW stHandshake generalNoIdentity =
      (stHandshake, [], some "Invalid message: Missing identityKey") :=
  general_message_missing_identityKey envW stHandshake generalNoIdentity
    "n1" [9] "r1" [222, 173, 190, 239] pendingSession "n1" "peer"
    rfl rfl rfl rfl rfl rfl rfl rfl rfl rfl

/-- C6 (amended): with a wallet whose createSignature returns the signed
bytes and whose verifySignature compares those bytes with the signature,
and for an arbitrary base64 decoder, the initialResponse produced by
processInitialRequest is accepted by processInitialResponse on the
initiator side: both sides compute the decoder applied to the string
concatenation initiatorNonce followed by responderNonce, so the data the
responder signs equals the data the initiator verifies whenever both hold
the same two nonce strings, and the initiator session becomes
authenticated. -/
theorem handshake_signature_data_agreement (decode : String → List Nat)
    (nInitiator nResponder initiatorKey responderKey : String)
    (hik : jsTrim initiatorKey ≠ "")
    (hin : jsTrim nInitiator ≠ "") :
    (processInitialRequest (envRoundTrip decode nResponder responderKey)
        stEmpty (initialRequestMsg nInitiator initiatorKey)).2.1 =
      [Event.sent (roundTripResponse decode nInitiator nResponder
        responderKey)] ∧
    (roundTripResponse decode nInitiator nResponder responderKey).signature =
      some (initialResponseSignatureData decode nInitiator nResponder) ∧
    processInitialResponse (envRoundTrip decode nResponder responderKey)
        (initiatorState nInitiator responderKey)
        (roundTripResponse decode nInitiator nResponder responderKey) =
      ({ initiatorState nInitiator responderKey with
          sessions :=
            [{ isAuthenticated := true, sessionNonce := some nInitiator,
               peerNonce := some nResponder,
               peerIdentityKey := some responderKey }] },
        [], none) := by
  refine ⟨?_, rfl, ?_⟩
  · simp [processInitialRequest, initialRequestMsg, envRoundTrip, stEmpty,
      optTrimEmpty, hik, hin, emptyRequestedCertificates,
      initialResponseSignatureData, roundTripResponse]
  · simp [processInitialResponse, initiatorState, envRoundTrip, getSession,
      updateSession, initialResponseSignatureData, List.find?,
      emptyRequestedCertificates, roundTripResponse]

/-- C6 witness: the round trip at the concrete decoder and concrete
nonces. -/
theorem handshake_signature_data_agreement_witness :
    (processInitialRequest (envRoundTrip base64Decode "n2" "kR")
        stEmpty (initialRequestMsg "n1" "kI")).2.1 =
      [Event.sent (roundTripResponse base64Decode "n1" "n2" "kR")] ∧
    (roundTripResponse base64Decode "n1" "n2" "kR").signature =
      some (initialResponseSignatureData base64Decode "n1" "n2") ∧
    processInitialResponse (envRoundTrip base64Decode "n2" "kR")
        (initiatorState "n1" "kR")
        (roundTripResponse base64Decode "n1" "n2" "kR") =
      ({ initiatorState "n1" "kR" with
          sessions :=
            [{ isAuthenticated := true, sessionNonce := some "n1",
               peerNonce := some "n2",
               peerIdentityKey := some "kR" }] },
        [], none) :=
  handshake_signature_data_agreement base64Decode "n1" "n2" "kI" "kR"
    (by decide) (by decide)
